import Mathlib

/-!
Shallow embedding of the case-similarity core of the ai-clinic-server
repository (`app/embedding_service.py` and `app/routes/doctor.py`), together
with proofs checking the natural-language specification against it.

Python dictionaries are modelled as structures of `Option`-valued fields
(`none` = key absent); Python truthiness of a retrieved value is modelled by
the `strTruthy` / `intTruthy` / `boolTruthy` helpers.  Embedding vectors are
modelled over `ℚ`; the square root used inside the external cosine-similarity
library is abstracted as a function parameter, since no claim depends on its
value at a nonzero argument.
-/

/-- Model of the `vitals` sub-dictionary of a visit record: each field is
`none` when the key is absent (`vitals.get(...)` then falls back to a
default). -/
structure Vitals where
  bloodPressure : Option String
  oxygen : Option String
  weight : Option String
  didRecover : Option Bool
  deriving DecidableEq, Repr

/-- Model of the `visit_data` dictionary consumed by
`create_clinical_text`: every key may be absent. -/
structure VisitData where
  gender : Option String
  age : Option Int
  vitals : Option Vitals
  clinicalTests : Option String
  doctorNoticed : Option String
  prescribedMedications : Option String
  deriving DecidableEq, Repr

/-- Model of the `patient_data` dictionary consumed by
`create_clinical_text_with_demographics` (only `age` and `gender` are read). -/
structure PatientData where
  age : Option Int
  gender : Option String
  deriving DecidableEq, Repr

/-- Python truthiness of `d.get(key)` for a string-valued key: `None` and the
empty string are falsy. -/
def strTruthy : Option String → Bool
  | none => false
  | some s => s != ""

/-- Python truthiness of `d.get(key)` for an integer-valued key: `None` and
`0` are falsy. -/
def intTruthy : Option Int → Bool
  | none => false
  | some n => n != 0

/-- Python truthiness of `d.get(key)` for a boolean-valued key: `None` and
`False` are falsy. -/
def boolTruthy : Option Bool → Bool
  | none => false
  | some b => b

/-- Python `". ".join(parts)`. -/
def joinDot : List String → String
  | [] => ""
  | [s] => s
  | s :: rest => s ++ ". " ++ joinDot rest

/-- The `text_parts` list built by `create_clinical_text`
(embedding_service.py, lines 119-147): gender and age when their keys are
present; the three vitals lines whenever the `vitals` key is present
(individual values defaulting to the empty string); clinical tests and doctor
observations when truthy; the recovery line when `didRecover` is a key of
`vitals`. -/
def clinicalParts (v : VisitData) : List String :=
  (match v.gender with
      | some g => ["Gender: " ++ g ++ "; "]
      | none => []) ++
    (match v.age with
      | some a => ["Age: " ++ toString a ++ "; "]
      | none => []) ++
    (match v.vitals with
      | some vit =>
          ["Blood pressure: " ++ vit.bloodPressure.getD "" ++ "; ",
           "Oxygen level: " ++ vit.oxygen.getD "" ++ "; ",
           "Weight: " ++ vit.weight.getD "" ++ "; "]
      | none => []) ++
    (if strTruthy v.clinicalTests then
        ["Clinical tests: " ++ v.clinicalTests.getD "" ++ "; "]
      else []) ++
    (if strTruthy v.doctorNoticed then
        ["Doctor observations: " ++ v.doctorNoticed.getD "" ++ "; "]
      else []) ++
    (match v.vitals with
      | some vit =>
          match vit.didRecover with
          | some r =>
              ["Patient status: " ++ (if r then "recovered" else "in treatment") ++ "; "]
          | none => []
      | none => [])

/-- `create_clinical_text` (embedding_service.py, lines 110-149): the
`text_parts` list above, then `". ".join(filter(None, text_parts))`. -/
def createClinicalText (v : VisitData) : String :=
  joinDot ((clinicalParts v).filter (fun s => s != ""))

/-- The age bucket computed inline in `create_clinical_text_with_demographics`
(embedding_service.py, lines 92-97). -/
def ageGroup (age : Int) : String :=
  if age < 18 then "pediatric"
  else if age < 65 then "adult"
  else "elderly"

/-- The demographic entries appended to `text_parts` by
`create_clinical_text_with_demographics` (lines 88-101): the age-group line
when the patient age is truthy, then the gender line when the gender is
truthy. -/
def demographicParts (p : PatientData) : List String :=
  (if intTruthy p.age then ["Age group: " ++ ageGroup (p.age.getD 0)] else []) ++
  (if strTruthy p.gender then ["Gender: " ++ p.gender.getD "" ++ "; "] else [])

/-- `create_clinical_text_with_demographics` (lines 74-108): demographic
entries (when a patient dictionary is supplied and truthy), then the clinical
text when non-empty, joined by `". ".join(filter(None, ...))`. -/
def createClinicalTextWithDemographics (visit : VisitData) (patient : Option PatientData) :
    String :=
  let demoParts : List String :=
    match patient with
    | some p => demographicParts p
    | none => []
  let clinicalText := createClinicalText visit
  let parts := demoParts ++ (if clinicalText != "" then [clinicalText] else [])
  joinDot (parts.filter (fun s => s != ""))

/-- `generate_visit_embedding` (lines 198-218), up to the provider call: the
combined text actually handed to `embed_text`.  Note the source computes
`demographics_text` by calling `create_clinical_text_with_demographics` with
the visit dictionary only — no patient data is passed. -/
def generateVisitEmbeddingText (visit : VisitData) : String :=
  let clinicalText := createClinicalText visit
  let demographicsText := createClinicalTextWithDemographics visit none
  "Age and other patient information: " ++ demographicsText ++
    ". Patient characteristics include: " ++ demographicsText ++ ". " ++ clinicalText

/-- Dot product of two rational vectors (`np.dot` on lists of equal length;
`zipWith` truncates to the shorter list, which never matters for same-length
vectors). -/
def dotProduct (a b : List ℚ) : ℚ :=
  (List.zipWith (fun x y => x * y) a b).sum

/-- Squared Euclidean norm of a vector. -/
def sqNorm (a : List ℚ) : ℚ :=
  dotProduct a a

/-- Modelled from the spec (external library, not repository code): the L2
norm used by `sklearn.metrics.pairwise.cosine_similarity`, whose `normalize`
step replaces a zero norm by `1` before dividing — the source of the spec's
explicit zero-norm policy.  The square root is abstracted as the parameter
`sqrt`, since no claim depends on its value at a nonzero argument. -/
def safeNorm (sqrt : ℚ → ℚ) (a : List ℚ) : ℚ :=
  if sqNorm a = 0 then 1 else sqrt (sqNorm a)

/-- Modelled from the spec (external library, not repository code): the
cosine similarity computed by `sklearn.metrics.pairwise.cosine_similarity`
for one pair of vectors — the dot product divided by the product of the
(zero-guarded) norms. -/
def cosineSimilarity (sqrt : ℚ → ℚ) (a b : List ℚ) : ℚ :=
  dotProduct a b / (safeNorm sqrt a * safeNorm sqrt b)

/-- Model of one entry of the `stored_embeddings` list assembled by the
`/chat` route (doctor.py, lines 248-261): the embedding vector plus the
denormalized display metadata used when formatting results. -/
structure StoredCase where
  visitId : Nat
  embedding : List ℚ
  patientAge : Int
  patientGender : String
  clinicalTests : String
  doctorNoticed : String
  prescribedMedications : String
  didRecover : Option Bool
  deriving DecidableEq, Repr

/-- The comparison realized by `results.sort(key=lambda x: x[1], reverse=True)`:
Python list sort is stable, so the result is the unique stable descending
order by score. -/
def scoreGE (a b : StoredCase × ℚ) : Prop :=
  b.2 ≤ a.2

instance : DecidableRel scoreGE :=
  fun a b => inferInstanceAs (Decidable (b.2 ≤ a.2))

/-- `find_similar_visits` (embedding_service.py, lines 220-251) with the
similarity function abstracted as the parameter `sim` (the source calls the
external `cosine_similarity` here): score every stored case against the
query, keep scores `≥ min_similarity` (inclusive), stable-sort descending by
score, and keep at most `top_k`. -/
def findSimilarVisitsWith (sim : List ℚ → List ℚ → ℚ) (queryEmbedding : List ℚ)
    (storedEmbeddings : List StoredCase) (topK : Nat) (minSimilarity : ℚ) :
    List (StoredCase × ℚ) :=
  if storedEmbeddings.isEmpty then []
  else
    let results :=
      (storedEmbeddings.map (fun e => (e, sim queryEmbedding e.embedding))).filter
        (fun r => decide (minSimilarity ≤ r.2))
    (List.insertionSort scoreGE results).take topK

/-- `find_similar_visits` with the similarity instantiated to the cosine
similarity actually used by the source. -/
def findSimilarVisits (sqrt : ℚ → ℚ) (queryEmbedding : List ℚ)
    (storedEmbeddings : List StoredCase) (topK : Nat) (minSimilarity : ℚ) :
    List (StoredCase × ℚ) :=
  findSimilarVisitsWith (cosineSimilarity sqrt) queryEmbedding storedEmbeddings topK
    minSimilarity

/-- Annotates each list element with its position, starting from `n`. -/
def withIdx {α : Type} : List α → Nat → List (α × Nat)
  | [], _ => []
  | a :: as, n => (a, n) :: withIdx as (n + 1)

/-- Modelled from the spec: the ranking order demanded by the claim —
strictly greater score first, ties broken by smaller original corpus
position. -/
def rankOrder (a b : (StoredCase × ℚ) × Nat) : Prop :=
  b.1.2 < a.1.2 ∨ (a.1.2 = b.1.2 ∧ a.2 ≤ b.2)

instance : DecidableRel rankOrder :=
  fun a b => inferInstanceAs (Decidable (b.1.2 < a.1.2 ∨ (a.1.2 = b.1.2 ∧ a.2 ≤ b.2)))

/-- Modelled from the spec: the claimed ranking operation, written from the
claim's own words — annotate the scored corpus with original positions, keep
exactly the items with score `≥ minSimilarity`, sort by descending score with
ties broken by original position, truncate to `topK`. -/
def rankSpec (sim : List ℚ → List ℚ → ℚ) (queryEmbedding : List ℚ)
    (storedEmbeddings : List StoredCase) (topK : Nat) (minSimilarity : ℚ) :
    List (StoredCase × ℚ) :=
  let scored := storedEmbeddings.map (fun e => (e, sim queryEmbedding e.embedding))
  let eligible := (withIdx scored 0).filter (fun p => decide (minSimilarity ≤ p.1.2))
  ((List.insertionSort rankOrder eligible).take topK).map Prod.fst

/-- `query_similar_cases` (embedding_service.py, lines 257-278): embed the
free-text query via the provider — modelled as a fallible function, since
`embed_text` raises on provider failure and the `except` clause turns any
such error into an empty result — then delegate to `find_similar_visits`
with the default `min_similarity = 0.1`. -/
def querySimilarCases (embed : String → Except Unit (List ℚ))
    (sim : List ℚ → List ℚ → ℚ) (queryText : String) (storedEmbeddings : List StoredCase)
    (topK : Nat) : List (StoredCase × ℚ) :=
  match embed queryText with
  | Except.error _ => []
  | Except.ok queryEmbedding =>
      findSimilarVisitsWith sim queryEmbedding storedEmbeddings topK (1 / 10)

/-- Model of the `VisitCreate` request body (models.py): vitals are required
strings, `didRecover` a required boolean, and the clinical free-text fields
optional. -/
structure VisitCreateData where
  patientName : String
  patientAge : Int
  patientGender : String
  patientPhone : String
  patientAddress : Option String
  bloodPressure : String
  oxygen : String
  weight : String
  didRecover : Bool
  clinicalTests : Option String
  doctorNoticed : Option String
  prescribedMedications : Option String
  deriving DecidableEq, Repr

/-- The `visit_dict` built by `create_visit` (doctor.py, lines 111-126), as
seen by `create_clinical_text`: no `gender` or `age` key, a `vitals`
sub-dictionary with all four keys present, and the optional clinical
fields copied through. -/
def visitDictOf (v : VisitCreateData) : VisitData :=
  { gender := none
    age := none
    vitals := some
      { bloodPressure := some v.bloodPressure
        oxygen := some v.oxygen
        weight := some v.weight
        didRecover := some v.didRecover }
    clinicalTests := v.clinicalTests
    doctorNoticed := v.doctorNoticed
    prescribedMedications := v.prescribedMedications }

/-- Observable outcome of the `create_visit` route: the success payload, the
final state of the durably inserted visit (its data and its embedding
field), and how many times the embedding provider was invoked. -/
structure CreateVisitOutcome where
  message : String
  visitId : Nat
  patientId : Nat
  storedVisitData : VisitData
  storedEmbedding : Option (List ℚ)
  embedCalls : Nat
  deriving DecidableEq, Repr

/-- `create_visit` (doctor.py, lines 79-158), embedding-relevant behavior:
the visit is first durably inserted without an embedding; then, only when
`visit_data.prescribedMedications` is truthy, a single try/except block
calls the provider and patches the embedding in place, swallowing any
failure of either step; the route then reports success with the generated
identifiers regardless.  `embed` models
`embedding_service.generate_visit_embedding` and `patch` models the
`db.visits.update_one` embedding patch, both fallible. -/
def createVisit (v : VisitCreateData) (visitId patientId : Nat)
    (embed : VisitData → Except Unit (List ℚ))
    (patch : Nat → List ℚ → Except Unit Unit) : CreateVisitOutcome :=
  let visitDict := visitDictOf v
  let step : Option (List ℚ) × Nat :=
    if strTruthy v.prescribedMedications then
      match embed visitDict with
      | Except.error _ => (none, 1)
      | Except.ok vec =>
          match patch visitId vec with
          | Except.error _ => (none, 1)
          | Except.ok _ => (some vec, 1)
    else (none, 0)
  { message := "Visit created successfully"
    visitId := visitId
    patientId := patientId
    storedVisitData := visitDict
    storedEmbedding := step.1
    embedCalls := step.2 }

/-- One structured case summary of the `/chat` response (doctor.py,
lines 274-282). -/
structure CaseSummary where
  caseNumber : Nat
  similarityScore : ℚ
  patientAge : Int
  patientGender : String
  clinicalObservations : String
  prescribedMedications : String
  outcome : String
  deriving DecidableEq, Repr

/-- Python `round(q, 3)` scaled to an integer: round half to even on the
value multiplied by 1000. -/
def pyRound1000 (q : ℚ) : Int :=
  let t := q * 1000
  let f := ⌊t⌋
  let r := t - (f : ℚ)
  if r < 1 / 2 then f
  else if 1 / 2 < r then f + 1
  else if f % 2 = 0 then f else f + 1

/-- Python `round(score, 3)`. -/
def round3 (q : ℚ) : ℚ :=
  (pyRound1000 q : ℚ) / 1000

/-- Zero-pads a fractional part below 1000 to three digits. -/
def pad3 (n : Nat) : String :=
  if n < 10 then "00" ++ toString n
  else if n < 100 then "0" ++ toString n
  else toString n

/-- Python float formatting with three decimals, as in the narrative text
of the `/chat` route. -/
def format3 (q : ℚ) : String :=
  let m := pyRound1000 q
  (if m < 0 then "-" else "") ++ toString (m.natAbs / 1000) ++ "." ++ pad3 (m.natAbs % 1000)

/-- The outcome label of a case (doctor.py, lines 281 and 289): Python
truthiness of `vitals.get("didRecover")`. -/
def outcomeOf (c : StoredCase) : String :=
  if boolTruthy c.didRecover then "Recovered" else "In Treatment"

/-- The structured summary of the i-th surviving case (doctor.py,
lines 274-282). -/
def caseSummaryOf (i : Nat) (c : StoredCase × ℚ) : CaseSummary :=
  { caseNumber := i
    similarityScore := round3 c.2
    patientAge := c.1.patientAge
    patientGender := c.1.patientGender
    clinicalObservations := c.1.doctorNoticed
    prescribedMedications := c.1.prescribedMedications
    outcome := outcomeOf c.1 }

/-- The narrative paragraph appended for the i-th surviving case (doctor.py,
lines 285-289).  Numeric rendering is modelled by `format3` / `toString`. -/
def caseParagraph (i : Nat) (c : StoredCase × ℚ) : String :=
  "Case " ++ toString i ++ " (Similarity: " ++ format3 c.2 ++ "):\n" ++
  "- Patient: " ++ toString c.1.patientAge ++ "yr " ++ c.1.patientGender ++ "\n" ++
  "- Observations: " ++ c.1.doctorNoticed ++ "\n" ++
  "- Treatment: " ++ c.1.prescribedMedications ++ "\n" ++
  "- Outcome: " ++ outcomeOf c.1 ++ "\n\n"

/-- The fixed message returned when no case survives filtering (doctor.py,
line 291). -/
def noSimilarCasesMessage : String :=
  "I couldn\x27t find any similar cases matching your query. This might be a unique case that requires careful consideration."

/-- The narrative header used when at least one case survives (doctor.py,
line 270). -/
def chatHeader (msg : String) (n : Nat) : String :=
  "Based on your query \x27" ++ msg ++ "\x27, I found " ++ toString n ++
    " similar cases:\n\n"

/-- The `/chat` response payload (doctor.py, lines 294-299). -/
structure ChatResult where
  response : String
  similarCases : List CaseSummary
  query : String
  context : Option String
  deriving DecidableEq, Repr

/-- `chat_with_assistant` (doctor.py, lines 225-299), at the level of the
already-fetched corpus: query similar cases with `top_k=3`; when some
survive, format the narrative and the structured summaries (enumerated from
1); otherwise return the fixed no-similar-cases message with an empty
structured list. -/
def chatWithAssistant (embed : String → Except Unit (List ℚ))
    (sim : List ℚ → List ℚ → ℚ) (message : String) (context : Option String)
    (storedEmbeddings : List StoredCase) : ChatResult :=
  let similarCases := querySimilarCases embed sim message storedEmbeddings 3
  if similarCases.isEmpty then
    { response := noSimilarCasesMessage
      similarCases := []
      query := message
      context := context }
  else
    { response := chatHeader message similarCases.length ++
        String.join ((withIdx similarCases 1).map (fun p => caseParagraph p.2 p.1))
      similarCases := (withIdx similarCases 1).map (fun p => caseSummaryOf p.2 p.1)
      query := message
      context := context }

/-- Modelled from the spec: the canonicalization claimed by C3, written from
the claim's words — an ordered list of segments, each included only if its
source field is present and non-empty, joined with `". "`. -/
def createClinicalTextClaim (v : VisitData) : String :=
  let segs : List (Bool × String) :=
    [ (strTruthy v.gender, "Gender: " ++ v.gender.getD "" ++ "; "),
      (v.age.isSome, "Age: " ++ toString (v.age.getD 0) ++ "; "),
      (strTruthy (v.vitals.bind Vitals.bloodPressure),
        "Blood pressure: " ++ (v.vitals.bind Vitals.bloodPressure).getD "" ++ "; "),
      (strTruthy (v.vitals.bind Vitals.oxygen),
        "Oxygen level: " ++ (v.vitals.bind Vitals.oxygen).getD "" ++ "; "),
      (strTruthy (v.vitals.bind Vitals.weight),
        "Weight: " ++ (v.vitals.bind Vitals.weight).getD "" ++ "; "),
      (strTruthy v.clinicalTests, "Clinical tests: " ++ v.clinicalTests.getD "" ++ "; "),
      (strTruthy v.doctorNoticed, "Doctor observations: " ++ v.doctorNoticed.getD "" ++ "; "),
      ((v.vitals.bind Vitals.didRecover).isSome,
        "Patient status: " ++
          (if (v.vitals.bind Vitals.didRecover).getD false then "recovered"
           else "in treatment") ++ "; ") ]
  joinDot ((segs.filter (fun s => s.1)).map (fun s => s.2))

/-- Modelled from the spec as amended: the ordered gated segments the code
actually emits — gender and age gated on key presence; the three vitals
segments gated on presence of the `vitals` group (missing individual values
rendered as the empty string); clinical tests and doctor observations gated
on truthiness; recovery gated on presence of the `didRecover` key. -/
def amendedSegs (v : VisitData) : List (Bool × String) :=
  [ (v.gender.isSome, "Gender: " ++ v.gender.getD "" ++ "; "),
    (v.age.isSome, "Age: " ++ toString (v.age.getD 0) ++ "; "),
    (v.vitals.isSome,
      "Blood pressure: " ++ (v.vitals.bind Vitals.bloodPressure).getD "" ++ "; "),
    (v.vitals.isSome,
      "Oxygen level: " ++ (v.vitals.bind Vitals.oxygen).getD "" ++ "; "),
    (v.vitals.isSome,
      "Weight: " ++ (v.vitals.bind Vitals.weight).getD "" ++ "; "),
    (strTruthy v.clinicalTests, "Clinical tests: " ++ v.clinicalTests.getD "" ++ "; "),
    (strTruthy v.doctorNoticed, "Doctor observations: " ++ v.doctorNoticed.getD "" ++ "; "),
    ((v.vitals.bind Vitals.didRecover).isSome,
      "Patient status: " ++
        (if (v.vitals.bind Vitals.didRecover).getD false then "recovered"
         else "in treatment") ++ "; ") ]

/-- Modelled from the spec as amended: the gated segments above, joined with
`". "` after dropping empty strings. -/
def createClinicalTextAmended (v : VisitData) : String :=
  joinDot ((((amendedSegs v).filter (fun s => s.1)).map (fun s => s.2)).filter
    (fun s => s != ""))

/-- A visit dictionary with no keys at all. -/
def emptyVisit : VisitData :=
  { gender := none, age := none, vitals := none, clinicalTests := none,
    doctorNoticed := none, prescribedMedications := none }

/-- A `vitals` sub-dictionary with no keys at all. -/
def emptyVitals : Vitals :=
  { bloodPressure := none, oxygen := none, weight := none, didRecover := none }

/-- A visit whose `vitals` key is present but holds no individual fields. -/
def bareVitalsVisit : VisitData :=
  { emptyVisit with vitals := some emptyVitals }

/-- A visit whose prescribed-medications value coincides with its gender. -/
def medsEqualGenderVisit : VisitData :=
  { emptyVisit with gender := some "male", prescribedMedications := some "male" }

/-- An elderly female patient, used to probe the demographics claims. -/
def elderlyPatient : PatientData :=
  { age := some 70, gender := some "female" }

/-- A stored case carrying only an embedding, for ranking examples. -/
def mkCase (i : Nat) (e : List ℚ) : StoredCase :=
  { visitId := i, embedding := e, patientAge := 0, patientGender := "",
    clinicalTests := "", doctorNoticed := "", prescribedMedications := "",
    didRecover := none }

/-- Corpus whose similarity scores against the ranking example query are
`0.9`, `0.5`, `0.95` in insertion order. -/
def rankingExampleCorpus : List StoredCase :=
  [mkCase 0 [9 / 10], mkCase 1 [1 / 2], mkCase 2 [19 / 20]]

/-- A similarity function reading the score off the stored vector, realizing
the corpus similarities of the ranking example. -/
def headSim : List ℚ → List ℚ → ℚ :=
  fun _ e => e.headD 0

/-- A well-formed visit-creation request whose prescribed-medications field
is absent. -/
def noMedsRequest : VisitCreateData :=
  { patientName := "Ada", patientAge := 30, patientGender := "female",
    patientPhone := "0300", patientAddress := none, bloodPressure := "120/80",
    oxygen := "98", weight := "70kg", didRecover := false,
    clinicalTests := some "CBC", doctorNoticed := some "fever",
    prescribedMedications := none }

/-! ## Helper lemmas -/

theorem sqNorm_eq_sum_squares (a : List ℚ) :
    sqNorm a = (a.map (fun x => x * x)).sum := by
  unfold sqNorm dotProduct
  rw [List.zipWith_same]

theorem sum_squares_nonneg (l : List ℚ) : 0 ≤ (l.map (fun x => x * x)).sum := by
  induction l with
  | nil => simp
  | cons x xs ih =>
    simp only [List.map_cons, List.sum_cons]
    have := mul_self_nonneg x
    linarith

theorem all_zero_of_sum_squares_eq_zero (l : List ℚ)
    (h : (l.map (fun x => x * x)).sum = 0) : ∀ x ∈ l, x = 0 := by
  induction l with
  | nil => simp
  | cons y ys ih =>
    simp only [List.map_cons, List.sum_cons] at h
    have h1 : 0 ≤ y * y := mul_self_nonneg y
    have h2 : 0 ≤ (ys.map (fun x => x * x)).sum := sum_squares_nonneg ys
    have hy : y * y = 0 := by linarith
    have hys : (ys.map (fun x => x * x)).sum = 0 := by linarith
    intro x hx
    rcases List.mem_cons.mp hx with rfl | hx'
    · exact mul_self_eq_zero.mp hy
    · exact ih hys x hx'

theorem dotProduct_eq_zero_left : ∀ a b : List ℚ, (∀ x ∈ a, x = 0) →
    dotProduct a b = 0
  | [], _, _ => by simp [dotProduct]
  | _ :: _, [], _ => by simp [dotProduct]
  | x :: xs, y :: ys, h => by
    have hx : x = 0 := h x (List.mem_cons_self x xs)
    have hxs := dotProduct_eq_zero_left xs ys (fun z hz => h z (List.mem_cons_of_mem _ hz))
    simp only [dotProduct, List.zipWith_cons_cons, List.sum_cons] at hxs ⊢
    rw [hx, hxs, zero_mul, add_zero]

theorem dotProduct_comm (a b : List ℚ) : dotProduct a b = dotProduct b a := by
  unfold dotProduct
  rw [List.zipWith_comm_of_comm _ mul_comm]

/-! ## Claim theorems -/

/-- Claim C8: for every pair of vectors where at least one has zero norm, the
cosine similarity used by the ranking operation evaluates to `0` (the library
replaces a zero norm by `1`, and the dot product against an all-zero vector
vanishes), rather than being undefined. -/
theorem cosineSimilarity_zero_norm (sqrt : ℚ → ℚ) (a b : List ℚ)
    (h : sqNorm a = 0 ∨ sqNorm b = 0) : cosineSimilarity sqrt a b = 0 := by
  have hdot : dotProduct a b = 0 := by
    rcases h with h | h
    · exact dotProduct_eq_zero_left a b
        (all_zero_of_sum_squares_eq_zero a ((sqNorm_eq_sum_squares a).symm.trans h))
    · rw [dotProduct_comm]
      exact dotProduct_eq_zero_left b a
        (all_zero_of_sum_squares_eq_zero b ((sqNorm_eq_sum_squares b).symm.trans h))
  unfold cosineSimilarity
  rw [hdot, zero_div]

/-- Witness for C8: the zero vector `[0, 0]` against `[1, 2]`, with the square
root instantiated to the identity. -/
theorem cosineSimilarity_zero_norm_witness :
    (sqNorm [(0 : ℚ), 0] = 0 ∨ sqNorm [(1 : ℚ), 2] = 0) ∧
      cosineSimilarity (fun x => x) [(0 : ℚ), 0] [(1 : ℚ), 2] = 0 :=
  ⟨Or.inl (by simp [sqNorm, dotProduct]),
    cosineSimilarity_zero_norm (fun x => x) [0, 0] [1, 2]
      (Or.inl (by simp [sqNorm, dotProduct]))⟩

/-- Claim C5: the age bucket boundaries are exactly `age < 18 → pediatric`,
`18 ≤ age < 65 → adult`, `65 ≤ age → elderly`; for every truthy age the
demographics rendering emits the bucket as its leading segment
`"Age group: <bucket>"`; and the four boundary examples hold. -/
theorem ageGroup_bucketing :
    (∀ a : Int, a < 18 → ageGroup a = "pediatric") ∧
    (∀ a : Int, 18 ≤ a → a < 65 → ageGroup a = "adult") ∧
    (∀ a : Int, 65 ≤ a → ageGroup a = "elderly") ∧
    (∀ (a : Int) (p : PatientData), p.age = some a → a ≠ 0 →
      (demographicParts p).head? = some ("Age group: " ++ ageGroup a)) ∧
    ageGroup 17 = "pediatric" ∧ ageGroup 18 = "adult" ∧
    ageGroup 64 = "adult" ∧ ageGroup 65 = "elderly" := by
  refine ⟨?_, ?_, ?_, ?_, by decide, by decide, by decide, by decide⟩
  · intro a h
    unfold ageGroup
    rw [if_pos h]
  · intro a h1 h2
    unfold ageGroup
    rw [if_neg (by omega), if_pos h2]
  · intro a h
    unfold ageGroup
    rw [if_neg (by omega), if_neg (by omega)]
  · intro a p hp ha
    have ht : intTruthy (some a) = true := by simpa [intTruthy] using ha
    simp [demographicParts, hp, ht]

/-- Witness for C5: concrete ages in each bucket, and a truthy age whose
bucket is emitted as the leading demographics segment. -/
theorem ageGroup_bucketing_witness :
    ageGroup 5 = "pediatric" ∧ ageGroup 30 = "adult" ∧ ageGroup 80 = "elderly" ∧
      (demographicParts { age := some 70, gender := some "f" }).head? =
        some ("Age group: " ++ ageGroup 70) :=
  ⟨ageGroup_bucketing.1 5 (by norm_num),
    ageGroup_bucketing.2.1 30 (by norm_num) (by norm_num),
    ageGroup_bucketing.2.2.1 80 (by norm_num),
    ageGroup_bucketing.2.2.2.1 70 { age := some 70, gender := some "f" } rfl
      (by norm_num)⟩

/-- Claim C10: a patient age of `0` is falsy in Python, so the demographics
rendering emits no age-group segment at all — even though `0` falls in the
pediatric bucket — leaving at most the gender segment and the clinical
text. -/
theorem age_zero_emits_no_age_group :
    ageGroup 0 = "pediatric" ∧
    (∀ (v : VisitData) (g : Option String),
      createClinicalTextWithDemographics v (some { age := some 0, gender := g }) =
        createClinicalTextWithDemographics v (some { age := none, gender := g })) ∧
    createClinicalTextWithDemographics emptyVisit
        (some { age := some 0, gender := some "male" }) = "Gender: male; " := by
  refine ⟨by decide, ?_, by decide⟩
  intro v g
  simp [createClinicalTextWithDemographics, demographicParts, intTruthy]

theorem createClinicalTextWithDemographics_none (v : VisitData) :
    createClinicalTextWithDemographics v none = createClinicalText v := by
  unfold createClinicalTextWithDemographics
  by_cases h : createClinicalText v = ""
  · simp [h, joinDot]
  · simp [h, joinDot]

set_option maxRecDepth 4000 in
/-- Counterexample to claim C2 as stated: `generate_visit_embedding` passes no
patient data to `create_clinical_text_with_demographics`, so for an elderly
female patient and an empty visit the demographics text the claim promises —
the age-group and gender segments — appears nowhere in the text handed to the
provider. -/
theorem generate_visit_embedding_omits_demographics :
    demographicParts elderlyPatient = ["Age group: elderly", "Gender: female; "] ∧
    ¬ ("Age group: elderly".toList <:+: (generateVisitEmbeddingText emptyVisit).toList) ∧
    ¬ ("female".toList <:+: (generateVisitEmbeddingText emptyVisit).toList) := by
  decide

/-- Claim C2 as amended: the text handed to the embedding provider is the
visit's clinical text included twice under the two framing phrases, followed
once more by the clinical text — because the demographics helper is called
without patient data, in which case it reduces to the clinical text. -/
theorem generate_visit_embedding_duplicates_clinical_text (v : VisitData) :
    generateVisitEmbeddingText v =
      "Age and other patient information: " ++ createClinicalText v ++
        ". Patient characteristics include: " ++ createClinicalText v ++ ". " ++
        createClinicalText v := by
  unfold generateVisitEmbeddingText
  rw [createClinicalTextWithDemographics_none]

/-- Counterexample to claim C4 as stated: when the prescribed-medications
value coincides with text arising from another field (here the gender), the
canonicalized text does contain that value. -/
theorem clinical_text_contains_medications_value :
    medsEqualGenderVisit.prescribedMedications = some "male" ∧
    "male".toList <:+: (createClinicalText medsEqualGenderVisit).toList := by
  decide

/-- Claim C4 as amended: `create_clinical_text` never reads the
prescribed-medications field — its output is unchanged under any modification
of that field — so the medications value can appear in the output only by
coinciding with text from other fields. -/
theorem clinical_text_ignores_medications (v : VisitData) (m : Option String) :
    createClinicalText { v with prescribedMedications := m } = createClinicalText v :=
  rfl

theorem clinicalParts_eq_gated_segs (v : VisitData) :
    clinicalParts v = ((amendedSegs v).filter (fun s => s.1)).map (fun s => s.2) := by
  obtain ⟨g, a, vit, ct, dn, pm⟩ := v
  rcases vit with _ | ⟨bp, ox, w, _ | dr⟩ <;> cases g <;> cases a <;>
    cases hct : strTruthy ct <;> cases hdn : strTruthy dn <;>
      simp [clinicalParts, amendedSegs, hct, hdn]

/-- Counterexample to claim C3 as stated: for a visit whose `vitals` group is
present but holds no individual fields, the code still emits the three vitals
segments with empty values, while the claimed rendering — each segment gated
on its own source field being present and non-empty — emits nothing. -/
theorem clinical_text_vitals_counterexample :
    createClinicalText bareVitalsVisit ≠ createClinicalTextClaim bareVitalsVisit ∧
    createClinicalText bareVitalsVisit =
      "Blood pressure: ; . Oxygen level: ; . Weight: ; " ∧
    createClinicalTextClaim bareVitalsVisit = "" := by
  decide

/-- Claim C3 as amended: the canonicalized clinical text is the ordered
segments — gender; age; blood pressure; oxygen level; weight; clinical
tests; doctor observations; recovery status (`recovered` / `in treatment`) —
joined with `". "`, where gender and age are gated on key presence, the
three vitals segments on presence of the `vitals` group (missing individual
values rendered empty), clinical tests and doctor observations on
truthiness, and recovery status on presence of the `didRecover` key. -/
theorem clinical_text_ordered_segments (v : VisitData) :
    createClinicalText v = createClinicalTextAmended v := by
  unfold createClinicalText createClinicalTextAmended
  rw [clinicalParts_eq_gated_segs]

theorem withIdx_map_fst {α : Type} : ∀ (l : List α) (n : Nat),
    (withIdx l n).map Prod.fst = l
  | [], _ => rfl
  | a :: as, n => by simp [withIdx, withIdx_map_fst as (n + 1)]

theorem mem_withIdx_le {α : Type} : ∀ (l : List α) (n : Nat) (y : α × Nat),
    y ∈ withIdx l n → n ≤ y.2
  | [], _, _, h => by simp [withIdx] at h
  | a :: as, n, y, h => by
    rcases List.mem_cons.mp h with rfl | h'
    · exact Nat.le_refl n
    · exact Nat.le_of_succ_le (mem_withIdx_le as (n + 1) y h')

theorem pairwise_withIdx {α : Type} : ∀ (l : List α) (n : Nat),
    (withIdx l n).Pairwise (fun a b => a.2 < b.2)
  | [], _ => List.Pairwise.nil
  | a :: as, n => by
    refine List.pairwise_cons.mpr ⟨?_, pairwise_withIdx as (n + 1)⟩
    intro y hy
    exact Nat.lt_of_lt_of_le (Nat.lt_succ_self n) (mem_withIdx_le as (n + 1) y hy)

theorem withIdx_filter_map_fst (m : ℚ) : ∀ (l : List (StoredCase × ℚ)) (n : Nat),
    (((withIdx l n).filter (fun p => decide (m ≤ p.1.2))).map Prod.fst) =
      l.filter (fun r => decide (m ≤ r.2))
  | [], _ => rfl
  | a :: as, n => by
    simp only [withIdx, List.filter_cons]
    cases hq : decide (m ≤ a.2) <;>
      simp [hq, withIdx_filter_map_fst m as (n + 1)]

theorem map_fst_orderedInsert (x : (StoredCase × ℚ) × Nat) :
    ∀ s : List ((StoredCase × ℚ) × Nat), (∀ y ∈ s, x.2 < y.2) →
      (List.orderedInsert rankOrder x s).map Prod.fst =
        List.orderedInsert scoreGE x.1 (s.map Prod.fst)
  | [], _ => rfl
  | y :: ys, h => by
    have hxy : x.2 < y.2 := h y (List.mem_cons_self y ys)
    have key : rankOrder x y ↔ scoreGE x.1 y.1 := by
      unfold rankOrder scoreGE
      constructor
      · rintro (h1 | ⟨h1, _⟩)
        · exact le_of_lt h1
        · exact le_of_eq h1.symm
      · intro h1
        rcases lt_or_eq_of_le h1 with h2 | h2
        · exact Or.inl h2
        · exact Or.inr ⟨h2.symm, le_of_lt hxy⟩
    simp only [List.map_cons, List.orderedInsert]
    by_cases hr : rankOrder x y
    · rw [if_pos hr, if_pos (key.mp hr)]
      simp
    · rw [if_neg hr, if_neg (fun hc => hr (key.mpr hc))]
      simp only [List.map_cons]
      rw [map_fst_orderedInsert x ys (fun z hz => h z (List.mem_cons_of_mem _ hz))]

theorem map_fst_insertionSort :
    ∀ t : List ((StoredCase × ℚ) × Nat), t.Pairwise (fun a b => a.2 < b.2) →
      (List.insertionSort rankOrder t).map Prod.fst =
        List.insertionSort scoreGE (t.map Prod.fst)
  | [], _ => rfl
  | x :: xs, h => by
    rcases List.pairwise_cons.mp h with ⟨hx, hxs⟩
    simp only [List.insertionSort, List.map_cons]
    rw [← map_fst_insertionSort xs hxs]
    exact map_fst_orderedInsert x _ (fun y hy =>
      hx y ((List.perm_insertionSort rankOrder xs).mem_iff.mp hy))

theorem findSimilarVisitsWith_eq_rankSpec (sim : List ℚ → List ℚ → ℚ)
    (q : List ℚ) (stored : List StoredCase) (k : Nat) (m : ℚ) :
    findSimilarVisitsWith sim q stored k m = rankSpec sim q stored k m := by
  cases stored with
  | nil => simp [findSimilarVisitsWith, rankSpec, withIdx]
  | cons c cs =>
    show (List.insertionSort scoreGE
        (((c :: cs).map (fun e => (e, sim q e.embedding))).filter
          (fun r => decide (m ≤ r.2)))).take k =
      ((List.insertionSort rankOrder
          ((withIdx ((c :: cs).map (fun e => (e, sim q e.embedding))) 0).filter
            (fun p => decide (m ≤ p.1.2)))).take k).map Prod.fst
    rw [List.map_take,
      map_fst_insertionSort _
        (List.Pairwise.sublist (List.filter_sublist _)
          (pairwise_withIdx ((c :: cs).map (fun e => (e, sim q e.embedding))) 0)),
      withIdx_filter_map_fst m]

/-- Claim C1: the ranking operation returns exactly the corpus items whose
similarity to the query reaches `minSimilarity` (inclusive), ordered by
descending similarity with ties broken by original corpus order, truncated to
at most `topK` — both for an arbitrary similarity function and for the cosine
similarity actually used — and on corpus similarities `[0.9, 0.5, 0.95]` with
`topK = 2`, `minSimilarity = 0.6` it returns the `0.95` and `0.9` items in
that order. -/
theorem find_similar_visits_ranking :
    (∀ (sim : List ℚ → List ℚ → ℚ) (q : List ℚ) (stored : List StoredCase)
        (k : Nat) (m : ℚ),
      findSimilarVisitsWith sim q stored k m = rankSpec sim q stored k m) ∧
    (∀ (sqrt : ℚ → ℚ) (q : List ℚ) (stored : List StoredCase) (k : Nat) (m : ℚ),
      findSimilarVisits sqrt q stored k m = rankSpec (cosineSimilarity sqrt) q stored k m) ∧
    findSimilarVisitsWith headSim [1] rankingExampleCorpus 2 (6 / 10) =
      [(mkCase 2 [19 / 20], 19 / 20), (mkCase 0 [9 / 10], 9 / 10)] := by
  refine ⟨findSimilarVisitsWith_eq_rankSpec, ?_, ?_⟩
  · intro sqrt q stored k m
    exact findSimilarVisitsWith_eq_rankSpec (cosineSimilarity sqrt) q stored k m
  · norm_num [findSimilarVisitsWith, rankingExampleCorpus, headSim, mkCase,
      List.insertionSort, List.orderedInsert, scoreGE]

/-- Claim C6: whether the provider raises or the embedding patch fails, the
visit-creation route still reports success with the generated identifiers,
the durably inserted visit keeps its data, the provider is invoked at most
once (no retry), and the stored visit simply has no embedding. -/
theorem create_visit_success_despite_embedding_failure :
    (∀ (v : VisitCreateData) (vid pid : Nat) (patch : Nat → List ℚ → Except Unit Unit),
      (createVisit v vid pid (fun _ => Except.error ()) patch).message =
          "Visit created successfully" ∧
      (createVisit v vid pid (fun _ => Except.error ()) patch).visitId = vid ∧
      (createVisit v vid pid (fun _ => Except.error ()) patch).patientId = pid ∧
      (createVisit v vid pid (fun _ => Except.error ()) patch).storedVisitData =
          visitDictOf v ∧
      (createVisit v vid pid (fun _ => Except.error ()) patch).storedEmbedding = none ∧
      (createVisit v vid pid (fun _ => Except.error ()) patch).embedCalls ≤ 1) ∧
    (∀ (v : VisitCreateData) (vid pid : Nat) (vec : List ℚ),
      (createVisit v vid pid (fun _ => Except.ok vec)
          (fun _ _ => Except.error ())).message = "Visit created successfully" ∧
      (createVisit v vid pid (fun _ => Except.ok vec)
          (fun _ _ => Except.error ())).visitId = vid ∧
      (createVisit v vid pid (fun _ => Except.ok vec)
          (fun _ _ => Except.error ())).patientId = pid ∧
      (createVisit v vid pid (fun _ => Except.ok vec)
          (fun _ _ => Except.error ())).storedVisitData = visitDictOf v ∧
      (createVisit v vid pid (fun _ => Except.ok vec)
          (fun _ _ => Except.error ())).storedEmbedding = none ∧
      (createVisit v vid pid (fun _ => Except.ok vec)
          (fun _ _ => Except.error ())).embedCalls ≤ 1) := by
  constructor <;> intro v vid pid x <;>
    cases hm : strTruthy v.prescribedMedications <;> simp [createVisit, hm]

/-- Counterexample to claim C7 as stated: for a request without prescribed
medications, the write path makes no embedding attempt at all — even with a
provider and a patch that would both succeed — so the stored visit keeps no
embedding. -/
theorem create_visit_skips_embedding_without_medications :
    (createVisit noMedsRequest 1 2 (fun _ => Except.ok [1])
        (fun _ _ => Except.ok ())).embedCalls = 0 ∧
    (createVisit noMedsRequest 1 2 (fun _ => Except.ok [1])
        (fun _ _ => Except.ok ())).storedEmbedding = none := by
  constructor <;> rfl

/-- Claim C7 as amended: the visit is durably inserted with the embedding
absent; the write path then makes exactly one best-effort embed-and-patch
attempt when the request's prescribed-medications value is truthy and none
otherwise; and the stored embedding is set (exactly once, to the embedded
vector) only when both the provider call and the patch succeed. -/
theorem create_visit_single_conditional_attempt (v : VisitCreateData) (vid pid : Nat)
    (embed : VisitData → Except Unit (List ℚ))
    (patch : Nat → List ℚ → Except Unit Unit) :
    (createVisit v vid pid embed patch).embedCalls =
      (if strTruthy v.prescribedMedications then 1 else 0) ∧
    ((createVisit v vid pid embed patch).storedEmbedding = none ∨
      (∃ vec, embed (visitDictOf v) = Except.ok vec ∧ patch vid vec = Except.ok () ∧
        (createVisit v vid pid embed patch).storedEmbedding = some vec ∧
        strTruthy v.prescribedMedications = true)) := by
  cases hm : strTruthy v.prescribedMedications
  · simp [createVisit, hm]
  · cases he : embed (visitDictOf v) with
    | error e => simp [createVisit, hm, he]
    | ok vec =>
      cases hp : patch vid vec with
      | error e => simp [createVisit, hm, he, hp]
      | ok u =>
        cases u
        exact ⟨by simp [createVisit, hm, he, hp],
          Or.inr ⟨vec, rfl, hp, by simp [createVisit, hm, he, hp], rfl⟩⟩

/-- Claim C9: a free-text similarity query always produces a well-formed
(possibly empty) list — an empty corpus yields `[]`, a raising provider
yields `[]`, a corpus entirely below the threshold yields `[]` — and when no
case survives, the chat response is the fixed no-similar-cases message with
an empty structured list. -/
theorem query_similar_cases_never_errors :
    (∀ (embed : String → Except Unit (List ℚ)) (sim : List ℚ → List ℚ → ℚ)
        (msg : String) (k : Nat),
      querySimilarCases embed sim msg [] k = []) ∧
    (∀ (sim : List ℚ → List ℚ → ℚ) (msg : String) (stored : List StoredCase) (k : Nat),
      querySimilarCases (fun _ => Except.error ()) sim msg stored k = []) ∧
    (∀ (embed : String → Except Unit (List ℚ)) (sim : List ℚ → List ℚ → ℚ)
        (msg : String) (stored : List StoredCase) (k : Nat) (q : List ℚ),
      embed msg = Except.ok q → (∀ c ∈ stored, sim q c.embedding < 1 / 10) →
      querySimilarCases embed sim msg stored k = []) ∧
    (∀ (embed : String → Except Unit (List ℚ)) (sim : List ℚ → List ℚ → ℚ)
        (msg : String) (ctx : Option String) (stored : List StoredCase),
      querySimilarCases embed sim msg stored 3 = [] →
      chatWithAssistant embed sim msg ctx stored =
        { response := noSimilarCasesMessage, similarCases := [], query := msg,
          context := ctx }) := by
  refine ⟨?_, ?_, ?_, ?_⟩
  · intro embed sim msg k
    cases h : embed msg <;>
      simp [querySimilarCases, h, findSimilarVisitsWith]
  · intro sim msg stored k
    rfl
  · intro embed sim msg stored k q hq hlt
    have hfil : ((stored.map (fun e => (e, sim q e.embedding))).filter
        (fun r => decide ((1 : ℚ) / 10 ≤ r.2))) = [] := by
      rw [List.filter_eq_nil_iff]
      intro r hr
      obtain ⟨c, hc, rfl⟩ := List.mem_map.mp hr
      simp only [decide_eq_true_eq]
      exact not_le.mpr (hlt c hc)
    cases stored with
    | nil => simp [querySimilarCases, hq, findSimilarVisitsWith]
    | cons c cs =>
      simp only [querySimilarCases, hq]
      show (List.insertionSort scoreGE
          (((c :: cs).map (fun e => (e, sim q e.embedding))).filter
            (fun r => decide ((1 : ℚ) / 10 ≤ r.2)))).take k = []
      rw [hfil]
      simp [List.insertionSort]
  · intro embed sim msg ctx stored h
    simp [chatWithAssistant, h]

/-- Witness for C9: a one-case corpus whose only similarity score `0` lies
below the `0.1` threshold yields the empty list, and a raising provider
yields the fixed no-similar-cases chat response. -/
theorem query_similar_cases_never_errors_witness :
    querySimilarCases (fun _ => Except.ok [1]) (fun _ _ => 0) "q" [mkCase 0 [1]] 3 = [] ∧
    chatWithAssistant (fun _ => Except.error ()) (fun _ _ => 0) "q" none [mkCase 0 [1]] =
      { response := noSimilarCasesMessage, similarCases := [], query := "q",
        context := none } :=
  ⟨query_similar_cases_never_errors.2.2.1 (fun _ => Except.ok [1]) (fun _ _ => 0) "q"
      [mkCase 0 [1]] 3 [1] rfl (by intro c hc; norm_num),
    query_similar_cases_never_errors.2.2.2 (fun _ => Except.error ()) (fun _ _ => 0) "q"
      none [mkCase 0 [1]]
      (query_similar_cases_never_errors.2.1 (fun _ _ => 0) "q" [mkCase 0 [1]] 3)⟩
